import Mathlib

/-!
Shallow embedding of `src/CrossSigningManager.js`: the module-level key cache
(`secretStorageKeys`, `cachingAllowed`), the key-provider callback
`getSecretStorageKey`, and the coordinator `accessSecretStorage`.

External collaborators (the modal dialogs, `deriveKey`, `decodeRecoveryKey`,
`checkSecretStoragePrivateKey`, `bootstrapSecretStorage`) are modelled
symbolically: key material is an inductive recording which primitive produced
it, interactive dialogs are parameters yielding their resolution value, and the
storage subsystem's bootstrap routine is driven by a flag saying whether it
needs to invoke the supplied auth callback.
-/

namespace CrossSigningManager

/-- The passphrase parameters block of a key descriptor (`info.passphrase`). -/
structure PassphraseParams where
  salt : String
  iterations : Nat
deriving Repr, DecidableEq

/-- A secret-storage key descriptor (`info`): optional passphrase parameters and
the public commitment (`info.pubkey`) used to verify candidate keys. -/
structure KeyInfo where
  passphrase : Option PassphraseParams
  pubkey : String
deriving Repr, DecidableEq

/-- Symbolic key bytes: records which external primitive produced them.
The constructor `derived` stands for `deriveKey(passphrase, salt, iterations)`;
the constructor `decoded` stands for `decodeRecoveryKey(recoveryKey)` applied to
the raw (possibly absent) `recoveryKey` field. -/
inductive Key where
  | derived (passphrase salt : String) (iterations : Nat)
  | decoded (recoveryKey : Option String)
deriving Repr, DecidableEq

/-- The object the access dialog resolves with: `{ passphrase, recoveryKey }`,
each field possibly absent. -/
structure Input where
  passphrase : Option String
  recoveryKey : Option String
deriving Repr, DecidableEq

/-- JS truthiness of an optional string: `undefined` and the empty string are
falsy, every other string is truthy. -/
def truthy : Option String → Bool
  | none => false
  | some s => s != ""

/-- The error kinds thrown by the file, plus the JS runtime `TypeError` that
destructuring or property access on `undefined` raises. -/
inductive JsError where
  | unsupportedMultiKeyRequest
  | secretStorageAccessCanceled
  | secretStorageCreationCanceled
  | crossSigningUploadAuthCanceled
  | typeError (msg : String)
deriving Repr, DecidableEq

/-- The module-level mutable state: `secretStorageKeys` (an object mapping
names to keys, kept as an association list with at most one entry per name)
and the gate `cachingAllowed`. -/
structure CacheState where
  secretStorageKeys : List (String × Key)
  cachingAllowed : Bool
deriving Repr, DecidableEq

/-- The inline cache read of `getSecretStorageKey` (line 40):
`cachingAllowed && secretStorageKeys[name]` — a value comes back only when the
gate is set and an entry exists. -/
def cacheLookup (st : CacheState) (name : String) : Option Key :=
  if st.cachingAllowed then st.secretStorageKeys.lookup name else none

/-- The inline cache write of `getSecretStorageKey` (lines 74–76):
`if (cachingAllowed) { secretStorageKeys[name] = key; }` — insert (overwriting
any previous entry for `name`) only when the gate is set, otherwise a no-op. -/
def cacheStore (st : CacheState) (name : String) (k : Key) : CacheState :=
  if st.cachingAllowed then
    { st with secretStorageKeys :=
        (name, k) :: st.secretStorageKeys.filter (fun e => e.1 != name) }
  else st

/-- The local `inputToKey` closure (lines 44–54): if the passphrase field is
truthy, derive via `deriveKey(passphrase, info.passphrase.salt,
info.passphrase.iterations)` — reading `salt` off a missing passphrase block is
a runtime `TypeError` — otherwise decode via `decodeRecoveryKey(recoveryKey)`. -/
def inputToKey (info : KeyInfo) (input : Input) : Except JsError Key :=
  if truthy input.passphrase then
    match info.passphrase with
    | some pp => .ok (.derived (input.passphrase.getD "") pp.salt pp.iterations)
    | none => .error (.typeError "cannot read salt of undefined")
  else
    .ok (.decoded input.recoveryKey)

/-- The `checkPrivateKey` verifier callback handed to the access dialog
(lines 61–64): compute the candidate key from the input with `inputToKey` and
check it against `info.pubkey` with the external verifier
`checkSecretStoragePrivateKey`, here the symbolic parameter `check`. -/
def checkPrivateKey (check : Key → String → Bool) (info : KeyInfo)
    (input : Input) : Except JsError Bool :=
  (inputToKey info input).map (fun k => check k info.pubkey)

/-- Outcome of one `getSecretStorageKey` call: the returned `[name, key]` pair
or the thrown error, the module state afterwards, and how many times the
interactive access dialog was opened. -/
structure GetKeyResult where
  result : Except JsError (String × Key)
  state : CacheState
  providerCalls : Nat
deriving Repr

/-- `getSecretStorageKey` (lines 32–79). `keyInfos` is the entry list of the
request's `keys` object; `provider` is the interactive access dialog, returning
the input object it resolved with, or nothing on cancellation. -/
def getSecretStorageKey (provider : KeyInfo → Option Input)
    (keyInfos : List (String × KeyInfo)) (st : CacheState) : GetKeyResult :=
  if keyInfos.length > 1 then
    { result := .error .unsupportedMultiKeyRequest, state := st, providerCalls := 0 }
  else
    match keyInfos with
    | [] =>
      { result := .error (.typeError "cannot destructure undefined"),
        state := st, providerCalls := 0 }
    | (name, info) :: _ =>
      match cacheLookup st name with
      | some k => { result := .ok (name, k), state := st, providerCalls := 0 }
      | none =>
        match provider info with
        | none =>
          { result := .error .secretStorageAccessCanceled, state := st,
            providerCalls := 1 }
        | some input =>
          match inputToKey info input with
          | .error e => { result := .error e, state := st, providerCalls := 1 }
          | .ok k =>
            { result := .ok (name, k), state := cacheStore st name k,
              providerCalls := 1 }

/-- The `authUploadDeviceSigningKeys` callback supplied to
`bootstrapSecretStorage` (lines 124–137): await the interactive-auth dialog
confirmation; throw `crossSigningUploadAuthCanceled` when declined, return
normally when confirmed. -/
def authUploadDeviceSigningKeys (confirmed : Bool) : Except JsError Unit :=
  if confirmed then .ok () else .error .crossSigningUploadAuthCanceled

/-- The external storage subsystem's `bootstrapSecretStorage` at its §6
contract: it invokes the supplied `authUploadDeviceSigningKeys` callback if and
when it needs to upload cross-signing keys (`needsUpload`), propagating the
callback's failure, and completes otherwise. -/
def bootstrapSecretStorage (needsUpload : Bool) (authConfirmed : Bool) :
    Except JsError Unit :=
  if needsUpload then authUploadDeviceSigningKeys authConfirmed else .ok ()

/-- The module state left by the `finally` block (lines 144–148):
`cachingAllowed = false; secretStorageKeys = {}`. -/
def clearedCache : CacheState :=
  { secretStorageKeys := [], cachingAllowed := false }

/-- Outcome of one `accessSecretStorage` call: the operation's result or the
thrown error, the module state after the `finally` block, and which
collaborators ran. -/
structure AccessResult (α : Type) where
  result : Except JsError α
  state : CacheState
  funcRan : Bool
  bootstrapCalled : Bool
  createFlowRan : Bool
  authCallbackCalls : Nat

/-- `accessSecretStorage` (lines 105–149). `hasKey` is
`cli.hasSecretStorageKey()`; `createConfirmed` is the resolution value of the
creation dialog; `needsUpload`/`authConfirmed` drive the modelled
`bootstrapSecretStorage`; `func` is the caller-supplied operation, taking the
module state it starts in and returning its result and the state it leaves. -/
def accessSecretStorage {α : Type}
    (hasKey createConfirmed needsUpload authConfirmed : Bool)
    (func : CacheState → Except JsError α × CacheState)
    (st : CacheState) : AccessResult α :=
  let st1 : CacheState := { st with cachingAllowed := true }
  let bootRes : Except JsError Unit :=
    if !hasKey then
      if createConfirmed then .ok () else .error .secretStorageCreationCanceled
    else
      bootstrapSecretStorage needsUpload authConfirmed
  match bootRes with
  | .error e =>
    { result := .error e, state := clearedCache, funcRan := false,
      bootstrapCalled := hasKey, createFlowRan := !hasKey,
      authCallbackCalls := if hasKey && needsUpload then 1 else 0 }
  | .ok _ =>
    { result := (func st1).1, state := clearedCache, funcRan := true,
      bootstrapCalled := hasKey, createFlowRan := !hasKey,
      authCallbackCalls := if hasKey && needsUpload then 1 else 0 }

/-! Concrete fixtures used by witnesses. -/

/-- A descriptor with passphrase parameters. -/
def infoA : KeyInfo :=
  { passphrase := some { salt := "saltA", iterations := 2 }, pubkey := "pubA" }

/-- A descriptor without passphrase parameters. -/
def infoB : KeyInfo := { passphrase := none, pubkey := "pubB" }

/-- An empty, disabled cache. -/
def cacheEmpty : CacheState := { secretStorageKeys := [], cachingAllowed := false }

/-- An enabled cache with no entries. -/
def cacheEnabled : CacheState := { secretStorageKeys := [], cachingAllowed := true }

/-- A disabled cache that still physically holds an entry for "n". -/
def cacheStale : CacheState :=
  { secretStorageKeys := [("n", Key.decoded (some "RKEY"))], cachingAllowed := false }

/-- A trivial caller operation returning 7. -/
def funcNat : CacheState → Except JsError Nat × CacheState := fun s => (.ok 7, s)

/-- Helper: the `finally` block leaves exactly `clearedCache` behind, on every
path through `accessSecretStorage`. -/
theorem accessSecretStorage_state_cleared {α : Type}
    (hasKey createConfirmed needsUpload authConfirmed : Bool)
    (func : CacheState → Except JsError α × CacheState) (st : CacheState) :
    (accessSecretStorage hasKey createConfirmed needsUpload authConfirmed func st).state =
      clearedCache := by
  unfold accessSecretStorage
  dsimp only
  split <;> rfl

/-- C1: however an `accessSecretStorage` invocation ends — whatever the
collaborator outcomes (`hasKey`, creation/auth confirmation, upload need) and
whatever the caller-supplied operation does to the cache — afterwards the gate
`cachingAllowed` is false, the entry map is empty, and `cacheLookup` yields
nothing for every name. -/
theorem c1_teardown_always {α : Type}
    (hasKey createConfirmed needsUpload authConfirmed : Bool)
    (func : CacheState → Except JsError α × CacheState) (st : CacheState) :
    (accessSecretStorage hasKey createConfirmed needsUpload authConfirmed func st).state.cachingAllowed = false ∧
    (accessSecretStorage hasKey createConfirmed needsUpload authConfirmed func st).state.secretStorageKeys = [] ∧
    ∀ name, cacheLookup
      (accessSecretStorage hasKey createConfirmed needsUpload authConfirmed func st).state name = none := by
  rw [accessSecretStorage_state_cleared]
  exact ⟨rfl, rfl, fun _ => rfl⟩

/-- C2: a request whose descriptor mapping has more than one entry fails with
the unsupported-multi-key error, opens no interactive dialog, and leaves the
cache state unchanged. -/
theorem c2_multi_key_rejected (provider : KeyInfo → Option Input)
    (keyInfos : List (String × KeyInfo)) (st : CacheState)
    (h : keyInfos.length > 1) :
    getSecretStorageKey provider keyInfos st =
      { result := .error .unsupportedMultiKeyRequest, state := st,
        providerCalls := 0 } := by
  unfold getSecretStorageKey
  simp [h]

/-- Witness for C2 at a concrete two-descriptor request. -/
theorem c2_multi_key_rejected_witness :
    [("a", infoA), ("b", infoB)].length > 1 ∧
    getSecretStorageKey (fun _ => none) [("a", infoA), ("b", infoB)] cacheEnabled =
      { result := .error .unsupportedMultiKeyRequest, state := cacheEnabled,
        providerCalls := 0 } :=
  ⟨by decide, c2_multi_key_rejected _ _ _ (by decide)⟩

/-- C5: with `hasSecretStorageKey()` false, `bootstrapSecretStorage` is never
invoked and only the creation flow runs (so its auth callback is never called
either); and when the creation dialog resolves unconfirmed the whole sequence
fails with the creation-canceled error and the caller operation never runs. -/
theorem c5_create_path {α : Type}
    (createConfirmed needsUpload authConfirmed : Bool)
    (func : CacheState → Except JsError α × CacheState) (st : CacheState) :
    (accessSecretStorage false createConfirmed needsUpload authConfirmed func st).bootstrapCalled = false ∧
    (accessSecretStorage false createConfirmed needsUpload authConfirmed func st).createFlowRan = true ∧
    (accessSecretStorage false createConfirmed needsUpload authConfirmed func st).authCallbackCalls = 0 ∧
    (createConfirmed = false →
      (accessSecretStorage false createConfirmed needsUpload authConfirmed func st).result =
        .error .secretStorageCreationCanceled ∧
      (accessSecretStorage false createConfirmed needsUpload authConfirmed func st).funcRan = false) := by
  unfold accessSecretStorage
  cases createConfirmed <;> simp

/-- Witness for C5 at a concrete unconfirmed creation flow. -/
theorem c5_create_path_witness :
    (accessSecretStorage false false false false funcNat cacheEmpty).result =
      .error .secretStorageCreationCanceled ∧
    (accessSecretStorage false false false false funcNat cacheEmpty).funcRan = false :=
  (c5_create_path false false false funcNat cacheEmpty).2.2.2 rfl

/-- C6: on the access path, a declined interactive auth makes the supplied
`authUploadDeviceSigningKeys` callback fail with the upload-auth-canceled
error; the whole coordinator sequence fails with that error, the caller
operation never runs, and the cache ends disabled. -/
theorem c6_upload_auth_declined {α : Type} (createConfirmed : Bool)
    (func : CacheState → Except JsError α × CacheState) (st : CacheState) :
    authUploadDeviceSigningKeys false = .error .crossSigningUploadAuthCanceled ∧
    (accessSecretStorage true createConfirmed true false func st).result =
      .error .crossSigningUploadAuthCanceled ∧
    (accessSecretStorage true createConfirmed true false func st).funcRan = false ∧
    (accessSecretStorage true createConfirmed true false func st).state.cachingAllowed = false := by
  unfold accessSecretStorage bootstrapSecretStorage authUploadDeviceSigningKeys
  simp [clearedCache]

/-- C10: the zero-descriptor request passes the more-than-one check, then
fails destructuring the missing first entry: a runtime type error, not a key
and not any of the four designed error kinds, with no dialog opened and the
cache untouched. -/
theorem c10_empty_request (provider : KeyInfo → Option Input) (st : CacheState) :
    getSecretStorageKey provider [] st =
      { result := .error (.typeError "cannot destructure undefined"),
        state := st, providerCalls := 0 } ∧
    (∀ p : String × Key, (getSecretStorageKey provider [] st).result ≠ .ok p) ∧
    (getSecretStorageKey provider [] st).result ≠ .error .unsupportedMultiKeyRequest ∧
    (getSecretStorageKey provider [] st).result ≠ .error .secretStorageAccessCanceled ∧
    (getSecretStorageKey provider [] st).result ≠ .error .secretStorageCreationCanceled ∧
    (getSecretStorageKey provider [] st).result ≠ .error .crossSigningUploadAuthCanceled := by
  unfold getSecretStorageKey
  simp

/-- C3: on a single-descriptor request with no cache hit, a declined/closed
dialog (provider yields nothing) makes `getSecretStorageKey` fail with the
access-canceled error with the cache untouched; and after any enclosing
`accessSecretStorage` invocation ends the gate is false. -/
theorem c3_access_canceled {α : Type} (provider : KeyInfo → Option Input)
    (name : String) (info : KeyInfo) (st : CacheState)
    (hasKey createConfirmed needsUpload authConfirmed : Bool)
    (func : CacheState → Except JsError α × CacheState) (st0 : CacheState)
    (hmiss : cacheLookup st name = none)
    (hprov : provider info = none) :
    getSecretStorageKey provider [(name, info)] st =
      { result := .error .secretStorageAccessCanceled, state := st,
        providerCalls := 1 } ∧
    (accessSecretStorage hasKey createConfirmed needsUpload authConfirmed func st0).state.cachingAllowed = false := by
  constructor
  · unfold getSecretStorageKey
    simp [hmiss, hprov]
  · rw [accessSecretStorage_state_cleared]
    rfl

/-- Witness for C3: a closed dialog on an empty disabled cache. -/
theorem c3_access_canceled_witness :
    getSecretStorageKey (fun _ => none) [("n", infoA)] cacheEmpty =
      { result := .error .secretStorageAccessCanceled, state := cacheEmpty,
        providerCalls := 1 } ∧
    (accessSecretStorage true true false false funcNat cacheEmpty).state.cachingAllowed = false :=
  c3_access_canceled (fun _ => none) "n" infoA cacheEmpty
    true true false false funcNat cacheEmpty rfl rfl

/-- Helper: a successful single-descriptor resolution under an enabled gate
leaves an entry for the name in the cache. -/
theorem lookup_after_single_ok (provider : KeyInfo → Option Input)
    (name : String) (info : KeyInfo) (st : CacheState) (k : Key)
    (hen : st.cachingAllowed = true)
    (hok : (getSecretStorageKey provider [(name, info)] st).result = .ok (name, k)) :
    cacheLookup (getSecretStorageKey provider [(name, info)] st).state name = some k := by
  unfold getSecretStorageKey at hok ⊢
  simp only [List.length_cons, List.length_nil, Nat.lt_irrefl, gt_iff_lt,
    if_false] at hok ⊢
  cases hcl : cacheLookup st name with
  | some k0 =>
    simp [hcl] at hok ⊢
    simp [hok, hcl]
  | none =>
    cases hp : provider info with
    | none => simp [hcl, hp] at hok
    | some input =>
      cases hik : inputToKey info input with
      | error e => simp [hcl, hp, hik] at hok
      | ok k0 =>
        simp [hcl, hp, hik] at hok ⊢
        subst hok
        simp [cacheStore, cacheLookup, hen, List.lookup]

/-- C4: within one coordinator scope (gate enabled), once one resolution of a
name succeeded, a subsequent request for the same name returns the cached key,
opens no dialog, and leaves the state unchanged — so the interactive dialog is
opened at most once per name per operation. -/
theorem c4_second_request_cached (provider provider2 : KeyInfo → Option Input)
    (name : String) (info : KeyInfo) (st : CacheState) (k : Key)
    (hen : st.cachingAllowed = true)
    (hok : (getSecretStorageKey provider [(name, info)] st).result = .ok (name, k)) :
    getSecretStorageKey provider2 [(name, info)]
        (getSecretStorageKey provider [(name, info)] st).state =
      { result := .ok (name, k),
        state := (getSecretStorageKey provider [(name, info)] st).state,
        providerCalls := 0 } := by
  have h2 := lookup_after_single_ok provider name info st k hen hok
  generalize hst : (getSecretStorageKey provider [(name, info)] st).state = st2 at h2 ⊢
  unfold getSecretStorageKey
  simp [h2]

/-- Witness for C4: resolve "n" through the dialog, then request it again. -/
theorem c4_second_request_cached_witness :
    getSecretStorageKey (fun _ => none) [("n", infoA)]
        (getSecretStorageKey (fun _ => some { passphrase := none, recoveryKey := some "RKEY" })
          [("n", infoA)] cacheEnabled).state =
      { result := .ok ("n", .decoded (some "RKEY")),
        state := (getSecretStorageKey (fun _ => some { passphrase := none, recoveryKey := some "RKEY" })
          [("n", infoA)] cacheEnabled).state,
        providerCalls := 0 } :=
  c4_second_request_cached
    (fun _ => some { passphrase := none, recoveryKey := some "RKEY" })
    (fun _ => none) "n" infoA cacheEnabled (.decoded (some "RKEY")) rfl rfl

/-- C7 counterexample: with the passphrase field present but equal to the
empty string (JS-falsy) and a recovery key also supplied, `inputToKey` takes
the recovery branch, not the derivation the claim demands for a present
passphrase field. -/
theorem c7_mode_selection_counterexample :
    inputToKey infoA { passphrase := some "", recoveryKey := some "RKEY" } =
      .ok (.decoded (some "RKEY")) ∧
    inputToKey infoA { passphrase := some "", recoveryKey := some "RKEY" } ≠
      .ok (.derived "" "saltA" 2) := by
  refine ⟨rfl, fun h => ?_⟩
  rw [show inputToKey infoA { passphrase := some "", recoveryKey := some "RKEY" } =
    .ok (.decoded (some "RKEY")) from rfl] at h
  simp at h

/-- C7 amended: exactly one derivation mode is applied per attempt, chosen by
JS truthiness of the passphrase field: when the passphrase field is present and
non-empty, the candidate key is the derivation from the passphrase and the
descriptor's salt/iterations; otherwise (absent or empty passphrase) it is the
decoding of the recoveryKey field. -/
theorem c7_mode_selection_amended (info : KeyInfo) (pp : PassphraseParams)
    (input : Input) (hpp : info.passphrase = some pp) :
    (truthy input.passphrase = true →
      inputToKey info input =
        .ok (.derived (input.passphrase.getD "") pp.salt pp.iterations)) ∧
    (truthy input.passphrase = false →
      inputToKey info input = .ok (.decoded input.recoveryKey)) := by
  unfold inputToKey
  constructor <;> intro h <;> simp [h, hpp]

/-- Witness for the amended C7: one truthy-passphrase attempt, one
recovery-key attempt. -/
theorem c7_mode_selection_amended_witness :
    inputToKey infoA { passphrase := some "pw", recoveryKey := none } =
      .ok (.derived "pw" "saltA" 2) ∧
    inputToKey infoA { passphrase := none, recoveryKey := some "RKEY" } =
      .ok (.decoded (some "RKEY")) :=
  ⟨(c7_mode_selection_amended infoA { salt := "saltA", iterations := 2 }
      { passphrase := some "pw", recoveryKey := none } rfl).1 rfl,
   (c7_mode_selection_amended infoA { salt := "saltA", iterations := 2 }
      { passphrase := none, recoveryKey := some "RKEY" } rfl).2 rfl⟩

/-- C8: the verifier callback handed to the dialog computes the candidate key
with the same mode-selection function `inputToKey` and checks it against the
descriptor's public commitment; and the key `getSecretStorageKey` finally
returns — and caches when the gate is enabled — is exactly the key derived
from the input the dialog resolved with. -/
theorem c8_verifier_and_returned_key (check : Key → String → Bool)
    (provider : KeyInfo → Option Input) (name : String) (info : KeyInfo)
    (st : CacheState) (input : Input) (k : Key)
    (hmiss : cacheLookup st name = none)
    (hprov : provider info = some input)
    (hkey : inputToKey info input = .ok k) :
    checkPrivateKey check info input = .ok (check k info.pubkey) ∧
    getSecretStorageKey provider [(name, info)] st =
      { result := .ok (name, k), state := cacheStore st name k,
        providerCalls := 1 } ∧
    (st.cachingAllowed = true →
      cacheLookup (getSecretStorageKey provider [(name, info)] st).state name = some k) := by
  have hmain : getSecretStorageKey provider [(name, info)] st =
      { result := .ok (name, k), state := cacheStore st name k,
        providerCalls := 1 } := by
    unfold getSecretStorageKey
    simp [hmiss, hprov, hkey]
  refine ⟨?_, hmain, fun hen => ?_⟩
  · unfold checkPrivateKey
    rw [hkey]
    rfl
  · rw [hmain]
    simp [cacheStore, cacheLookup, hen, List.lookup]

/-- Witness for C8: a recovery-key resolution on an enabled empty cache. -/
theorem c8_verifier_and_returned_key_witness :
    checkPrivateKey (fun _ _ => true) infoA
        { passphrase := none, recoveryKey := some "RKEY" } =
      .ok ((fun _ _ => true) (Key.decoded (some "RKEY")) infoA.pubkey) ∧
    getSecretStorageKey (fun _ => some { passphrase := none, recoveryKey := some "RKEY" })
        [("n", infoA)] cacheEnabled =
      { result := .ok ("n", .decoded (some "RKEY")),
        state := cacheStore cacheEnabled "n" (.decoded (some "RKEY")),
        providerCalls := 1 } ∧
    (cacheEnabled.cachingAllowed = true →
      cacheLookup (getSecretStorageKey
          (fun _ => some { passphrase := none, recoveryKey := some "RKEY" })
          [("n", infoA)] cacheEnabled).state "n" = some (.decoded (some "RKEY"))) :=
  c8_verifier_and_returned_key (fun _ _ => true)
    (fun _ => some { passphrase := none, recoveryKey := some "RKEY" })
    "n" infoA cacheEnabled { passphrase := none, recoveryKey := some "RKEY" }
    (.decoded (some "RKEY")) rfl rfl rfl

/-- C9: when the gate is down, the cache read yields nothing even if an entry
for the name physically exists; the cache write is a silent no-op leaving the
entry map unchanged; and a fresh resolution still returns the key to the
caller, just without caching it. -/
theorem c9_gate_observed (st : CacheState) (name : String)
    (hdis : st.cachingAllowed = false) :
    cacheLookup st name = none ∧
    (∀ k, cacheStore st name k = st) ∧
    (∀ (provider : KeyInfo → Option Input) (info : KeyInfo) (input : Input) (k : Key),
      provider info = some input → inputToKey info input = .ok k →
      getSecretStorageKey provider [(name, info)] st =
        { result := .ok (name, k), state := st, providerCalls := 1 }) := by
  refine ⟨by simp [cacheLookup, hdis], fun k => by simp [cacheStore, hdis],
    fun provider info input k hp hik => ?_⟩
  unfold getSecretStorageKey
  simp [cacheLookup, cacheStore, hdis, hp, hik]

/-- Witness for C9: a disabled cache that still holds a stale entry for "n". -/
theorem c9_gate_observed_witness :
    cacheLookup cacheStale "n" = none ∧
    (∀ k, cacheStore cacheStale "n" k = cacheStale) ∧
    (∀ (provider : KeyInfo → Option Input) (info : KeyInfo) (input : Input) (k : Key),
      provider info = some input → inputToKey info input = .ok k →
      getSecretStorageKey provider [("n", info)] cacheStale =
        { result := .ok ("n", k), state := cacheStale, providerCalls := 1 }) :=
  c9_gate_observed cacheStale "n" rfl

end CrossSigningManager
